import Mathlib

/-!
Shallow embedding of `src/index.ts` (OSRS High Alchemy Profit Finder).

JavaScript numbers that the program ever produces are integers (all inputs are
integer prices/values and the arithmetic is +, -, *), so they are modelled as
`Int`.  A `Record<string, PriceData>` is modelled as a function
`String → Option PriceData` (JS property lookup returning `undefined` for a
missing key).  JS truthiness on these values: `null`/`undefined` and `0` are
falsy, every other integer is truthy; the embedding spells each `!x` / `x || d`
out at its use site.
-/

/-- The `interface ItemMapping` of src/index.ts. -/
structure ItemMapping where
  id : Nat
  name : String
  examine : String
  members : Bool
  highalch : Option Int
  lowalch : Option Int
  value : Int
  limit : Option Int
deriving DecidableEq, Repr

/-- The `interface PriceData` of src/index.ts. -/
structure PriceData where
  high : Option Int
  highTime : Option Int
  low : Option Int
  lowTime : Option Int
deriving DecidableEq, Repr

/-- The price map `Record<string, PriceData>`. -/
def Prices : Type := String → Option PriceData

/-- The `interface AlchemyItem` of src/index.ts (the ProfitRecord of the spec). -/
structure AlchemyItem where
  id : Nat
  name : String
  members : Bool
  highAlchValue : Int
  buyPrice : Int
  sellPrice : Int
  profit : Int
  buyLimit : Option Int
  batchProfit : Int
  priceTimestamp : Option Int
deriving DecidableEq, Repr

/-- JS `Number.prototype.toFixed d` applied to the exact rational `num / den`
(`den ≠ 0`): round to the nearest multiple of `10 ^ (-d)`, ties away from
zero, and render with exactly `d` digits after the decimal point. -/
def toFixed (num den d : Nat) : String :=
  let m := (2 * num * 10 ^ d + den) / (2 * den)
  let frac := toString (m % 10 ^ d)
  toString (m / 10 ^ d) ++ "." ++ String.mk (List.replicate (d - frac.length) '0') ++ frac

/-- Function `formatPrice` from src/index.ts. -/
def formatPrice (num : Int) : String :=
  if num ≥ 1000000000 then toFixed num.toNat 1000000000 2 ++ "B"
  else if num ≥ 1000000 then toFixed num.toNat 1000000 2 ++ "M"
  else if num ≥ 1000 then toFixed num.toNat 1000 1 ++ "K"
  else toString num

/-- The `const NATURE_RUNE_PRICE = prices["561"]?.high || 100` of
`calculateProfits`: the `?.` yields `undefined` when the key is absent, and
`|| 100` replaces `undefined`, `null` and `0` by `100`. -/
def NATURE_RUNE_PRICE (prices : Prices) : Int :=
  match prices "561" with
  | some pd =>
    match pd.high with
    | some h => if h = 0 then 100 else h
    | none => 100
  | none => 100

/-- One iteration of the `for (const item of items)` loop body of
`calculateProfits`: `some` of the record pushed onto `profitableItems`, or
`none` when one of the `continue`s (or the `profit > 0` guard) skips the
item. -/
def profitRecord? (natureRunePrice : Int) (prices : Prices) (item : ItemMapping) :
    Option AlchemyItem :=
  match item.highalch with
  | none => none
  | some ha =>
    -- `if (!item.highalch || item.highalch <= 0) continue;`
    if ha = 0 then none
    else if ha ≤ 0 then none
    else
      match prices (toString item.id) with
      | none => none
      | some priceData =>
        match priceData.high with
        | none => none
        | some buyPrice =>
          -- `if (!buyPrice) continue;`
          if buyPrice = 0 then none
          else
            -- `const profit = item.highalch - buyPrice - NATURE_RUNE_PRICE;`
            -- (inlined below), `if (profit > 0)`
            if ha - buyPrice - natureRunePrice > 0 then
              some { id := item.id, name := item.name, members := item.members,
                     highAlchValue := ha, buyPrice := buyPrice,
                     sellPrice :=
                       -- `sellPrice: sellPrice || buyPrice`
                       match priceData.low with
                       | some l => if l = 0 then buyPrice else l
                       | none => buyPrice,
                     profit := ha - buyPrice - natureRunePrice, buyLimit := item.limit,
                     batchProfit := (ha - buyPrice - natureRunePrice) *
                       -- `const effectiveLimit = item.limit || 1000;` (inlined)
                       (match item.limit with
                        | some l => if l = 0 then 1000 else l
                        | none => 1000),
                     priceTimestamp := priceData.highTime }
            else none

/-- The comparator `(a, b) => b.profit - a.profit` keeps `a` no later than `b`
exactly when `a.profit ≥ b.profit`. -/
def profitGE (a b : AlchemyItem) : Prop := b.profit ≤ a.profit

instance : DecidableRel profitGE :=
  fun a b => inferInstanceAs (Decidable (b.profit ≤ a.profit))

instance : IsTotal AlchemyItem profitGE := ⟨fun a b => le_total b.profit a.profit⟩

instance : IsTrans AlchemyItem profitGE := ⟨fun _ _ _ h1 h2 => le_trans h2 h1⟩

/-- Function `calculateProfits` from src/index.ts.  The loop accumulating
`profitableItems` is `List.filterMap profitRecord?`; the final
`profitableItems.sort((a, b) => b.profit - a.profit)` is a stable sort
(ES2019+ `Array.prototype.sort` is specified stable, and this comparator is
consistent, so the result is the unique stable descending-profit ordering):
insertion sort computes exactly that list. -/
def calculateProfits (items : List ItemMapping) (prices : Prices) : List AlchemyItem :=
  List.insertionSort profitGE
    (items.filterMap (profitRecord? (NATURE_RUNE_PRICE prices) prices))

/-- A concrete price map used to exercise the definitions: item 1 trades at
high 500 / low 400, and the Nature rune (561) at high 120. -/
def egPrices : Prices := fun k =>
  if k = "1" then some ⟨some 500, some 7, some 400, some 7⟩
  else if k = "561" then some ⟨some 120, none, none, none⟩
  else none

/-- A concrete catalog entry: item 1 with high-alch value 1000 and buy limit 100. -/
def egItem : ItemMapping :=
  ⟨1, "Widget", "", false, some 1000, none, 0, some 100⟩

/-- The record `calculateProfits` produces for `egItem` under `egPrices`:
profit = 1000 − 500 − 120 = 380, batch profit = 380 × 100 = 38000. -/
def egRecord : AlchemyItem :=
  ⟨1, "Widget", false, 1000, 500, 400, 380, some 100, 38000, some 7⟩

/-- A catalog entry whose buy limit is recorded as `0`; `item.limit || 1000`
treats that the same as an absent limit. -/
def zeroLimitItem : ItemMapping :=
  ⟨2, "Gadget", "", false, some 1000, none, 0, some 0⟩

/-- Prices for `zeroLimitItem`: item 2 at high 500, Nature rune at high 120. -/
def zeroLimitPrices : Prices := fun k =>
  if k = "2" then some ⟨some 500, none, none, none⟩
  else if k = "561" then some ⟨some 120, none, none, none⟩
  else none

/-- The record `calculateProfits` produces for `zeroLimitItem`: profit 380,
batch profit 380 × 1000 (the zero limit falls back to 1000), sell price
falling back to the buy price (no low price recorded). -/
def zeroLimitRecord : AlchemyItem :=
  ⟨2, "Gadget", false, 1000, 500, 500, 380, some 0, 380000, none⟩

/-- The data printed by `displayResults`' SUMMARY block (src/index.ts lines
182-187).  `topItems` is `items.slice(0, 50)`; `topItems[0]?.name || "N/A"`
maps both a missing first element and an empty name to `"N/A"`;
`topItems[0]?.profit || 0` (resp. `batchProfit`) maps a missing first element
to `0` (the `|| 0` on a present value is the identity: `0 || 0` is `0`);
the last line prints `formatPrice(100)` — a literal 100. -/
structure Summary where
  totalProfitable : Nat
  topItemName : String
  topItemProfit : String
  bestBatchName : String
  bestBatchProfit : String
  natureRuneCost : String
deriving DecidableEq, Repr

/-- See `Summary`. -/
def displaySummary (items : List AlchemyItem) : Summary :=
  { totalProfitable := items.length,
    topItemName :=
      match (items.take 50).head? with
      | some i => if i.name = "" then "N/A" else i.name
      | none => "N/A",
    topItemProfit := formatPrice
      (match (items.take 50).head? with
       | some i => i.profit
       | none => 0),
    bestBatchName :=
      match (items.take 50).head? with
      | some i => if i.name = "" then "N/A" else i.name
      | none => "N/A",
    bestBatchProfit := formatPrice
      (match (items.take 50).head? with
       | some i => i.batchProfit
       | none => 0),
    natureRuneCost := formatPrice 100 }

/-- Item 10 "Alpha": profit 1000 − 790 − 200 = 10, buy limit 1, batch 10. -/
def batchItemA : ItemMapping := ⟨10, "Alpha", "", false, some 1000, none, 0, some 1⟩

/-- Item 11 "Beta": profit 1000 − 795 − 200 = 5, buy limit 100, batch 500. -/
def batchItemB : ItemMapping := ⟨11, "Beta", "", false, some 1000, none, 0, some 100⟩

/-- Prices for the batch example; the Nature rune really costs 200 here. -/
def batchPrices : Prices := fun k =>
  if k = "10" then some ⟨some 790, none, none, none⟩
  else if k = "11" then some ⟨some 795, none, none, none⟩
  else if k = "561" then some ⟨some 200, none, none, none⟩
  else none

/-- The record emitted for `batchItemA`. -/
def batchRecA : AlchemyItem := ⟨10, "Alpha", false, 1000, 790, 790, 10, some 1, 10, none⟩

/-- The record emitted for `batchItemB`. -/
def batchRecB : AlchemyItem := ⟨11, "Beta", false, 1000, 795, 795, 5, some 100, 500, none⟩

/-- A price map with no entry at all for the Nature rune (key "561"). -/
def noNaturePrices : Prices := fun k =>
  if k = "1" then some ⟨some 500, none, some 400, none⟩ else none

/-- An item whose price entry records `high: 0`. -/
def zeroHighItem : ItemMapping := ⟨7, "Nullish", "", false, some 5000, none, 0, none⟩

/-- Prices recording a zero high price for item 7, and normal prices for
item 1 / the Nature rune. -/
def zeroHighPrices : Prices := fun k =>
  if k = "7" then some ⟨some 0, none, some 3, none⟩
  else if k = "1" then some ⟨some 500, some 7, some 400, some 7⟩
  else if k = "561" then some ⟨some 120, none, none, none⟩
  else none

/-- The observable outcome of `main`: the process exit code, the single
`console.error` line if one was printed, and whether the "no profitable
items" notice was printed. -/
structure MainOutcome where
  exitCode : Nat
  stderrLine : Option String
  printedNoProfitNotice : Bool
deriving DecidableEq, Repr

/-- Function `mainRun` embeds `main` from src/index.ts (renamed: Lean reserves `main`),
over the joint result of the two fetches.
`Except.error msg` models a rejected fetch (non-ok HTTP status or decode
failure) surfacing in the `catch` block, which prints `"❌ Error:"` plus the
message via `console.error` and calls `process.exit(1)`.  On success, if
`profitableItems.length === 0` the notice is printed and the early `return`
ends the process normally (exit code 0); otherwise the results are displayed
and the process also exits 0. -/
def mainRun (fetched : Except String (List ItemMapping × Prices)) : MainOutcome :=
  match fetched with
  | .error msg =>
    { exitCode := 1, stderrLine := some ("❌ Error: " ++ msg),
      printedNoProfitNotice := false }
  | .ok (items, prices) =>
    if (calculateProfits items prices).length = 0 then
      { exitCode := 0, stderrLine := none, printedNoProfitNotice := true }
    else
      { exitCode := 0, stderrLine := none, printedNoProfitNotice := false }

/-- C7 spec-side renderer, following the claim's words: n ≥ 1e9 → n/1e9 with
2 decimals plus "B"; 1e6 ≤ n < 1e9 → n/1e6 with 2 decimals plus "M";
1e3 ≤ n < 1e6 → n/1e3 with 1 decimal plus "K"; n < 1e3 → the literal
integer. -/
def formatPriceSpec (n : Nat) : String :=
  if 1000000000 ≤ n then toFixed n 1000000000 2 ++ "B"
  else if 1000000 ≤ n ∧ n < 1000000000 then toFixed n 1000000 2 ++ "M"
  else if 1000 ≤ n ∧ n < 1000000 then toFixed n 1000 1 ++ "K"
  else toString n

example : calculateProfits [egItem] egPrices = [egRecord] := by decide

example : formatPrice 1500 = "1.5K" := by decide
example : formatPrice 2300000 = "2.30M" := by decide
example : formatPrice 999 = "999" := by decide
example : formatPrice 1000000000 = "1.00B" := by decide

/-- Inversion for the loop body: if `profitRecord?` keeps `item`, every guard
on the way to the `push` succeeded, and the record's fields are exactly the
pushed ones. -/
theorem profitRecord?_eq_some {nat : Int} {prices : Prices} {item : ItemMapping}
    {r : AlchemyItem} (h : profitRecord? nat prices item = some r) :
    ∃ ha buyPrice priceData,
      item.highalch = some ha ∧ 0 < ha ∧
      prices (toString item.id) = some priceData ∧
      priceData.high = some buyPrice ∧ buyPrice ≠ 0 ∧
      0 < ha - buyPrice - nat ∧
      r = { id := item.id, name := item.name, members := item.members,
            highAlchValue := ha, buyPrice := buyPrice,
            sellPrice :=
              match priceData.low with
              | some l => if l = 0 then buyPrice else l
              | none => buyPrice,
            profit := ha - buyPrice - nat, buyLimit := item.limit,
            batchProfit := (ha - buyPrice - nat) *
              (match item.limit with
               | some l => if l = 0 then 1000 else l
               | none => 1000),
            priceTimestamp := priceData.highTime } := by
  cases hha : item.highalch with
  | none => simp only [profitRecord?, hha] at h; exact Option.noConfusion h
  | some ha =>
    simp only [profitRecord?, hha] at h
    by_cases h0 : ha = 0
    · simp only [if_pos h0] at h; exact Option.noConfusion h
    · simp only [if_neg h0] at h
      by_cases hle : ha ≤ 0
      · simp only [if_pos hle] at h; exact Option.noConfusion h
      · simp only [if_neg hle] at h
        cases hpd : prices (toString item.id) with
        | none => simp only [hpd] at h; exact Option.noConfusion h
        | some priceData =>
          simp only [hpd] at h
          cases hhigh : priceData.high with
          | none => simp only [hhigh] at h; exact Option.noConfusion h
          | some bp =>
            simp only [hhigh] at h
            by_cases hbp : bp = 0
            · simp only [if_pos hbp] at h; exact Option.noConfusion h
            · simp only [if_neg hbp] at h
              by_cases hprofit : ha - bp - nat > 0
              · simp only [if_pos hprofit] at h
                exact ⟨ha, bp, priceData, rfl, by omega, rfl, hhigh, hbp, hprofit,
                  (Option.some.inj h).symm⟩
              · simp only [if_neg hprofit] at h; exact Option.noConfusion h

/-- C1: `calculateProfits` emits a ProfitRecord for an item only if the item's
`highalch` is present and strictly positive, the price map has an entry for
the item with a recorded high (buy-side) price, and the computed profit is
strictly positive; and for every emitted record,
profit = highAlchValue − buyPrice − reagent cost (`NATURE_RUNE_PRICE`). -/
theorem calculateProfits_record_sound
    (items : List ItemMapping) (prices : Prices) (r : AlchemyItem)
    (hr : r ∈ calculateProfits items prices) :
    ∃ item ∈ items, ∃ priceData,
      item.highalch = some r.highAlchValue ∧ 0 < r.highAlchValue ∧
      prices (toString item.id) = some priceData ∧
      priceData.high = some r.buyPrice ∧
      r.profit = r.highAlchValue - r.buyPrice - NATURE_RUNE_PRICE prices ∧
      0 < r.profit := by
  rw [calculateProfits, List.mem_insertionSort] at hr
  obtain ⟨item, hitem, hrec⟩ := List.mem_filterMap.mp hr
  obtain ⟨ha, bp, pd, h1, h2, h3, h4, h5, h6, h7⟩ := profitRecord?_eq_some hrec
  subst h7
  exact ⟨item, hitem, pd, h1, h2, h3, h4, rfl, h6⟩

/-- Witness for C1 at `egItem` / `egPrices` and the record `egRecord`. -/
theorem calculateProfits_record_sound_witness :
    egRecord ∈ calculateProfits [egItem] egPrices ∧
    ∃ item ∈ [egItem], ∃ priceData,
      item.highalch = some egRecord.highAlchValue ∧ 0 < egRecord.highAlchValue ∧
      egPrices (toString item.id) = some priceData ∧
      priceData.high = some egRecord.buyPrice ∧
      egRecord.profit = egRecord.highAlchValue - egRecord.buyPrice - NATURE_RUNE_PRICE egPrices ∧
      0 < egRecord.profit :=
  ⟨by decide, calculateProfits_record_sound [egItem] egPrices egRecord (by decide)⟩

/-- Stability transfer: within one profit class, insertion sort keeps the
order of the unsorted list. -/
theorem insertionSort_filter_profit (l : List AlchemyItem) (p : Int) :
    (List.insertionSort profitGE l).filter (fun r => r.profit == p) =
      l.filter (fun r => r.profit == p) := by
  have hmem : ∀ a ∈ l.filter (fun r => r.profit == p), a.profit = p := by
    intro a ha
    simpa using (List.mem_filter.mp ha).2
  have hpc : (l.filter (fun r => r.profit == p)).Pairwise profitGE :=
    List.pairwise_of_forall_mem_list fun a ha b hb => by
      show b.profit ≤ a.profit
      rw [hmem a ha, hmem b hb]
  have hsub : List.Sublist (l.filter (fun r => r.profit == p))
      (List.insertionSort profitGE l) :=
    List.sublist_insertionSort hpc (List.filter_sublist l)
  have hidem : (l.filter (fun r => r.profit == p)).filter (fun r => r.profit == p) =
      l.filter (fun r => r.profit == p) :=
    List.filter_eq_self.mpr fun a ha => by simp [hmem a ha]
  have hsub2 : List.Sublist (l.filter (fun r => r.profit == p))
      ((List.insertionSort profitGE l).filter (fun r => r.profit == p)) := by
    have := hsub.filter (fun r => r.profit == p)
    rwa [hidem] at this
  have hperm : List.Perm
      ((List.insertionSort profitGE l).filter (fun r => r.profit == p))
      (l.filter (fun r => r.profit == p)) :=
    (List.perm_insertionSort profitGE l).filter _
  exact (hsub2.eq_of_length hperm.length_eq.symm).symm

/-- C2: the output of `calculateProfits` is pairwise (hence adjacently) sorted
by profit in descending order, and records of equal profit keep the relative
order their items had in the input catalog (the unsorted `filterMap` pass). -/
theorem calculateProfits_sorted_stable (items : List ItemMapping) (prices : Prices) :
    (calculateProfits items prices).Pairwise
      (fun a b : AlchemyItem => b.profit ≤ a.profit) ∧
    ∀ p : Int,
      (calculateProfits items prices).filter (fun r => r.profit == p) =
        (items.filterMap (profitRecord? (NATURE_RUNE_PRICE prices) prices)).filter
          (fun r => r.profit == p) :=
  ⟨List.sorted_insertionSort profitGE _, fun p => insertionSort_filter_profit _ p⟩

/-- C3 counterexample: an item whose buy limit is present but equal to 0 is
emitted with batchProfit = profit × 1000, not profit × 0. -/
theorem batchProfit_limit_counterexample :
    calculateProfits [zeroLimitItem] zeroLimitPrices = [zeroLimitRecord] ∧
    zeroLimitRecord.buyLimit = some 0 ∧ zeroLimitRecord.profit = 380 ∧
    zeroLimitRecord.batchProfit = 380000 ∧
    zeroLimitRecord.batchProfit ≠ zeroLimitRecord.profit * 0 := by decide

/-- C3 amended: for every emitted record, batchProfit equals profit times the
buy limit when the limit is present and nonzero, and profit times the default
1000 when the limit is absent or zero. -/
theorem batchProfit_effective_limit
    (items : List ItemMapping) (prices : Prices) (r : AlchemyItem)
    (hr : r ∈ calculateProfits items prices) :
    (∀ l : Int, r.buyLimit = some l → l ≠ 0 → r.batchProfit = r.profit * l) ∧
    ((r.buyLimit = none ∨ r.buyLimit = some 0) → r.batchProfit = r.profit * 1000) := by
  rw [calculateProfits, List.mem_insertionSort] at hr
  obtain ⟨item, hitem, hrec⟩ := List.mem_filterMap.mp hr
  obtain ⟨ha, bp, pd, h1, h2, h3, h4, h5, h6, h7⟩ := profitRecord?_eq_some hrec
  subst h7
  constructor
  · intro l hl hl0
    have hl' : item.limit = some l := hl
    simp [hl', hl0]
  · intro hcase
    rcases hcase with hnone | hzero
    · have hl' : item.limit = none := hnone
      simp [hl']
    · have hl' : item.limit = some 0 := hzero
      simp [hl']

/-- Witness for C3 at `egItem` (buy limit 100): batch profit 38000 = 380 × 100. -/
theorem batchProfit_effective_limit_witness :
    egRecord ∈ calculateProfits [egItem] egPrices ∧
    egRecord.batchProfit = egRecord.profit * 100 :=
  ⟨by decide,
   (batchProfit_effective_limit [egItem] egPrices egRecord (by decide)).1 100 rfl (by decide)⟩

/-- C4 counterexample: under `batchPrices` the reagent cost actually used by
`calculateProfits` is 200, yet the summary prints `formatPrice(100)`; and the
"Best batch" line names Alpha (batch profit 10) although Beta's batch profit
500 is the maximum of the emitted records. -/
theorem displaySummary_claim_counterexample :
    NATURE_RUNE_PRICE batchPrices = 200 ∧
    (displaySummary (calculateProfits [batchItemA, batchItemB] batchPrices)).natureRuneCost
      = "100" ∧
    calculateProfits [batchItemA, batchItemB] batchPrices = [batchRecA, batchRecB] ∧
    (displaySummary (calculateProfits [batchItemA, batchItemB] batchPrices)).bestBatchName
      = "Alpha" ∧
    batchRecA.name = "Alpha" ∧ batchRecB.name = "Beta" ∧
    batchRecA.batchProfit < batchRecB.batchProfit := by decide

/-- C4 amended: the summary block reports the total count of profitable items,
the name and per-item profit of the first record — which is a record of
maximal per-item profit — that same first record's batch profit on the "Best
batch" line (not the maximal batch profit), and the fixed default
`formatPrice 100` as the reagent cost (not the reagent cost actually used in
the profit computation). -/
theorem displaySummary_fields
    (items : List ItemMapping) (prices : Prices) (r : AlchemyItem) (rest : List AlchemyItem)
    (hout : calculateProfits items prices = r :: rest) :
    (displaySummary (calculateProfits items prices)).totalProfitable = rest.length + 1 ∧
    (∀ s ∈ calculateProfits items prices, s.profit ≤ r.profit) ∧
    (displaySummary (calculateProfits items prices)).topItemName =
      (if r.name = "" then "N/A" else r.name) ∧
    (displaySummary (calculateProfits items prices)).topItemProfit = formatPrice r.profit ∧
    (displaySummary (calculateProfits items prices)).bestBatchName =
      (if r.name = "" then "N/A" else r.name) ∧
    (displaySummary (calculateProfits items prices)).bestBatchProfit =
      formatPrice r.batchProfit ∧
    (displaySummary (calculateProfits items prices)).natureRuneCost = formatPrice 100 := by
  have hsorted : (calculateProfits items prices).Pairwise profitGE :=
    List.sorted_insertionSort profitGE _
  rw [hout] at hsorted
  have hhead : ((r :: rest).take 50).head? = some r := rfl
  refine ⟨by rw [hout]; simp [displaySummary], ?_, ?_, ?_, ?_, ?_, rfl⟩
  · intro s hs
    rw [hout] at hs
    rcases List.mem_cons.mp hs with rfl | hs
    · exact le_refl _
    · exact (List.pairwise_cons.mp hsorted).1 s hs
  · rw [hout]; simp [displaySummary, hhead]
  · rw [hout]; simp [displaySummary, hhead]
  · rw [hout]; simp [displaySummary, hhead]
  · rw [hout]; simp [displaySummary, hhead]

/-- Witness for the amended C4 on the batch example. -/
theorem displaySummary_fields_witness :
    (displaySummary (calculateProfits [batchItemA, batchItemB] batchPrices)).totalProfitable
      = [batchRecB].length + 1 ∧
    batchRecB.profit ≤ batchRecA.profit ∧
    (displaySummary (calculateProfits [batchItemA, batchItemB] batchPrices)).bestBatchProfit
      = formatPrice batchRecA.batchProfit ∧
    (displaySummary (calculateProfits [batchItemA, batchItemB] batchPrices)).natureRuneCost
      = formatPrice 100 := by
  have h := displaySummary_fields [batchItemA, batchItemB] batchPrices batchRecA [batchRecB]
    (by decide)
  exact ⟨h.1, h.2.1 batchRecB (by decide), h.2.2.2.2.2.1, h.2.2.2.2.2.2⟩

/-- C5: when the price map has no entry under the reagent key "561", or its
entry records no high price, the reagent cost used by `calculateProfits` is
the fixed default 100. -/
theorem natureRunePrice_default (prices : Prices)
    (h : prices "561" = none ∨ ∃ pd, prices "561" = some pd ∧ pd.high = none) :
    NATURE_RUNE_PRICE prices = 100 ∧
    ∀ items, calculateProfits items prices =
      List.insertionSort profitGE (items.filterMap (profitRecord? 100 prices)) := by
  have hnat : NATURE_RUNE_PRICE prices = 100 := by
    rcases h with h | ⟨pd, hpd, hhigh⟩
    · simp [NATURE_RUNE_PRICE, h]
    · simp [NATURE_RUNE_PRICE, hpd, hhigh]
  exact ⟨hnat, fun items => by rw [calculateProfits, hnat]⟩

/-- Witness for C5 on a price map with no "561" entry. -/
theorem natureRunePrice_default_witness :
    NATURE_RUNE_PRICE noNaturePrices = 100 ∧
    calculateProfits [egItem] noNaturePrices =
      List.insertionSort profitGE ([egItem].filterMap (profitRecord? 100 noNaturePrices)) :=
  ⟨(natureRunePrice_default noNaturePrices (Or.inl rfl)).1,
   (natureRunePrice_default noNaturePrices (Or.inl rfl)).2 [egItem]⟩

/-- C6: on a successful fetch whose qualifying set is empty, `main` prints the
"no profitable items" notice and exits 0; on any fetch/decode error it prints
a single error line to stderr and exits 1. -/
theorem main_outcomes (items : List ItemMapping) (prices : Prices) (msg : String)
    (hempty : calculateProfits items prices = []) :
    (mainRun (.ok (items, prices))).exitCode = 0 ∧
    (mainRun (.ok (items, prices))).printedNoProfitNotice = true ∧
    (mainRun (.ok (items, prices))).stderrLine = none ∧
    (mainRun (.error msg)).exitCode = 1 ∧
    (mainRun (.error msg)).stderrLine = some ("❌ Error: " ++ msg) := by
  refine ⟨?_, ?_, ?_, rfl, rfl⟩ <;> simp [mainRun, hempty]

/-- Witness for C6: an empty catalog yields the notice and exit 0; an error
yields exit 1 and the stderr line. -/
theorem main_outcomes_witness :
    (mainRun (.ok ([], egPrices))).exitCode = 0 ∧
    (mainRun (.ok ([], egPrices))).printedNoProfitNotice = true ∧
    (mainRun (.ok ([], egPrices))).stderrLine = none ∧
    (mainRun (.error "Failed to fetch item mapping: 500 Internal Server Error")).exitCode = 1 ∧
    (mainRun (.error "Failed to fetch item mapping: 500 Internal Server Error")).stderrLine =
      some ("❌ Error: " ++ "Failed to fetch item mapping: 500 Internal Server Error") :=
  main_outcomes [] egPrices "Failed to fetch item mapping: 500 Internal Server Error"
    (by decide)

/-- C7: `formatPrice` agrees with the spec's magnitude-suffix rule
(`formatPriceSpec`) on every non-negative integer, and takes the four values
the spec requires. -/
theorem formatPrice_spec_correct (n : Nat) :
    formatPrice n = formatPriceSpec n ∧
    formatPrice 1500 = "1.5K" ∧ formatPrice 2300000 = "2.30M" ∧
    formatPrice 999 = "999" ∧ formatPrice 1000000000 = "1.00B" := by
  refine ⟨?_, by decide, by decide, by decide, by decide⟩
  have htn : (n : Int).toNat = n := Int.toNat_ofNat n
  unfold formatPrice formatPriceSpec
  split_ifs <;> first | (exfalso; omega) | rw [htn] | rfl

/-- C8: `calculateProfits` is a pure function of its two inputs — the same
catalog and a pointwise-equal price map always give the same result (the
embedding is a function of immutable values; the source mutates only the
fresh local `profitableItems` array, never its arguments). -/
theorem calculateProfits_deterministic
    (itemsA itemsB : List ItemMapping) (pricesA pricesB : Prices)
    (hi : itemsA = itemsB) (hp : ∀ k, pricesA k = pricesB k) :
    calculateProfits itemsA pricesA = calculateProfits itemsB pricesB := by
  subst hi
  rw [show pricesA = pricesB from funext hp]

/-- Witness for C8 at the running example. -/
theorem calculateProfits_deterministic_witness :
    calculateProfits [egItem] egPrices = calculateProfits [egItem] egPrices :=
  calculateProfits_deterministic [egItem] [egItem] egPrices egPrices rfl (fun _ => rfl)

/-- C9: if the price entry under an id records a high price of 0, no emitted
record carries that id, whatever the item's alchemy value: a zero high price
is rejected by `if (!buyPrice) continue` exactly like a missing one. -/
theorem calculateProfits_skips_zero_high
    (items : List ItemMapping) (prices : Prices) (itemId : Nat) (pd : PriceData)
    (hpd : prices (toString itemId) = some pd) (hhigh : pd.high = some 0) :
    ∀ r ∈ calculateProfits items prices, r.id ≠ itemId := by
  intro r hr hid
  rw [calculateProfits, List.mem_insertionSort] at hr
  obtain ⟨item, hitem, hrec⟩ := List.mem_filterMap.mp hr
  obtain ⟨ha, bp, pd', h1, h2, h3, h4, h5, h6, h7⟩ := profitRecord?_eq_some hrec
  have hrid : r.id = item.id := by rw [h7]
  have hid' : item.id = itemId := by rw [← hrid, hid]
  rw [hid', hpd] at h3
  obtain rfl : pd = pd' := Option.some.inj h3
  rw [hhigh] at h4
  exact h5 (Option.some.inj h4).symm

/-- Witness for C9: item 7 has `high: 0` in `zeroHighPrices`; the one emitted
record (for item 1) indeed has an id other than 7. -/
theorem calculateProfits_skips_zero_high_witness :
    egRecord ∈ calculateProfits [zeroHighItem, egItem] zeroHighPrices ∧
    egRecord.id ≠ 7 :=
  ⟨by decide,
   calculateProfits_skips_zero_high [zeroHighItem, egItem] zeroHighPrices 7
     ⟨some 0, none, some 3, none⟩ (by decide) rfl egRecord (by decide)⟩

/-- C10: in every emitted record the sell price is the recorded low price when
one is present and nonzero, and the chosen buy price otherwise. -/
theorem calculateProfits_sellPrice
    (items : List ItemMapping) (prices : Prices) (r : AlchemyItem)
    (hr : r ∈ calculateProfits items prices) :
    ∃ item ∈ items, ∃ pd, prices (toString item.id) = some pd ∧
      pd.high = some r.buyPrice ∧
      ((∃ l, pd.low = some l ∧ l ≠ 0 ∧ r.sellPrice = l) ∨
       ((pd.low = none ∨ pd.low = some 0) ∧ r.sellPrice = r.buyPrice)) := by
  rw [calculateProfits, List.mem_insertionSort] at hr
  obtain ⟨item, hitem, hrec⟩ := List.mem_filterMap.mp hr
  obtain ⟨ha, bp, pd, h1, h2, h3, h4, h5, h6, h7⟩ := profitRecord?_eq_some hrec
  subst h7
  refine ⟨item, hitem, pd, h3, h4, ?_⟩
  cases hlow : pd.low with
  | none => exact Or.inr ⟨Or.inl rfl, by simp⟩
  | some l =>
    by_cases hl0 : l = 0
    · exact Or.inr ⟨Or.inr (by rw [hl0]), by simp [hl0]⟩
    · exact Or.inl ⟨l, rfl, hl0, by simp [hl0]⟩

/-- Witness for C10 on the running example (low price 400 present and
nonzero, so the record's sell price is 400). -/
theorem calculateProfits_sellPrice_witness :
    egRecord ∈ calculateProfits [egItem] egPrices ∧
    ∃ item ∈ [egItem], ∃ pd, egPrices (toString item.id) = some pd ∧
      pd.high = some egRecord.buyPrice ∧
      ((∃ l, pd.low = some l ∧ l ≠ 0 ∧ egRecord.sellPrice = l) ∨
       ((pd.low = none ∨ pd.low = some 0) ∧ egRecord.sellPrice = egRecord.buyPrice)) :=
  ⟨by decide, calculateProfits_sellPrice [egItem] egPrices egRecord (by decide)⟩
